import Mathlib

/-!
Shallow embedding of the OAuth PKCE login core of `pajama` (`src/oauth.rs`).

Bytes are modelled as `Nat` values below 256; machine words in SHA-256 are
`Nat` reduced modulo 2^32.  Randomness (`OsRng`) is modelled as an oracle
`rnd : Nat → List Nat` mapping a requested byte count to the bytes drawn.
Network and OS effects (registration call, port binding, inbound
connections, the token endpoint's reply) are supplied through an explicit
environment record, so the orchestration is a pure function of it.
-/

namespace Pajama

/-! ### base64url without padding (`base64::engine::general_purpose::URL_SAFE_NO_PAD`) -/

def b64Alphabet : List Char :=
  "ABCDEFGHIJKLMNOPQRSTUVWXYZabcdefghijklmnopqrstuvwxyz0123456789-_".data

def b64Char (n : Nat) : Char := b64Alphabet.getD n 'A'

def b64urlEncodeBytes : List Nat → List Char
  | a :: b :: c :: rest =>
      let x := a * 65536 + b * 256 + c
      b64Char (x / 262144 % 64) :: b64Char (x / 4096 % 64) ::
      b64Char (x / 64 % 64) :: b64Char (x % 64) :: b64urlEncodeBytes rest
  | [a, b] =>
      [b64Char (a / 4), b64Char ((a % 4) * 16 + b / 16), b64Char ((b % 16) * 4)]
  | [a] =>
      [b64Char (a / 4), b64Char ((a % 4) * 16)]
  | [] => []

def encodeB64url (bs : List Nat) : String := String.mk (b64urlEncodeBytes bs)

/-! ### UTF-8 encoding (Rust `str::as_bytes`) -/

def utf8EncodeChar (c : Char) : List Nat :=
  let n := c.toNat
  if n < 128 then [n]
  else if n < 2048 then [192 + n / 64, 128 + n % 64]
  else if n < 65536 then [224 + n / 4096, 128 + n / 64 % 64, 128 + n % 64]
  else [240 + n / 262144, 128 + n / 4096 % 64, 128 + n / 64 % 64, 128 + n % 64]

def strBytes (s : String) : List Nat := s.data.flatMap utf8EncodeChar

def utf8Len (s : String) : Nat := (strBytes s).length

/-! ### SHA-256 (the `sha2` crate's `Sha256`), over byte lists -/

def m32 (x : Nat) : Nat := x % 4294967296

def rotr32 (n x : Nat) : Nat := m32 ((x >>> n) ||| (x <<< (32 - n)))

def shaS0 (x : Nat) : Nat := (rotr32 7 x) ^^^ (rotr32 18 x) ^^^ (x >>> 3)
def shaS1 (x : Nat) : Nat := (rotr32 17 x) ^^^ (rotr32 19 x) ^^^ (x >>> 10)
def shaB0 (x : Nat) : Nat := (rotr32 2 x) ^^^ (rotr32 13 x) ^^^ (rotr32 22 x)
def shaB1 (x : Nat) : Nat := (rotr32 6 x) ^^^ (rotr32 11 x) ^^^ (rotr32 25 x)

def shaK : List Nat :=
  [1116352408, 1899447441, 3049323471, 3921009573, 961987163,
   1508970993, 2453635748, 2870763221, 3624381080, 310598401,
   607225278, 1426881987, 1925078388, 2162078206, 2614888103,
   3248222580, 3835390401, 4022224774, 264347078, 604807628,
   770255983, 1249150122, 1555081692, 1996064986, 2554220882,
   2821834349, 2952996808, 3210313671, 3336571891, 3584528711,
   113926993, 338241895, 666307205, 773529912, 1294757372,
   1396182291, 1695183700, 1986661051, 2177026350, 2456956037,
   2730485921, 2820302411, 3259730800, 3345764771, 3516065817,
   3600352804, 4094571909, 275423344, 430227734, 506948616,
   659060556, 883997877, 958139571, 1322822218, 1537002063,
   1747873779, 1955562222, 2024104815, 2227730452, 2361852424,
   2428436474, 2756734187, 3204031479, 3329325298]

def shaH0 : List Nat :=
  [1779033703, 3144134277, 1013904242, 2773480762,
   1359893119, 2600822924, 528734635, 1541459225]

def be64 (n : Nat) : List Nat :=
  [n >>> 56 % 256, n >>> 48 % 256, n >>> 40 % 256, n >>> 32 % 256,
   n >>> 24 % 256, n >>> 16 % 256, n >>> 8 % 256, n % 256]

def be32 (n : Nat) : List Nat :=
  [n >>> 24 % 256, n >>> 16 % 256, n >>> 8 % 256, n % 256]

def padMsg (msg : List Nat) : List Nat :=
  msg ++ [128] ++ List.replicate ((119 - msg.length % 64) % 64) 0 ++ be64 (8 * msg.length)

def toWords : List Nat → List Nat
  | a :: b :: c :: d :: rest => (a * 16777216 + b * 65536 + c * 256 + d) :: toWords rest
  | _ => []

def extendSchedule : Nat → List Nat → List Nat
  | 0, w => w
  | n + 1, w =>
      let t := m32 (shaS1 (w.getD (w.length - 2) 0) + w.getD (w.length - 7) 0 +
                    shaS0 (w.getD (w.length - 15) 0) + w.getD (w.length - 16) 0)
      extendSchedule n (w ++ [t])

def mkSchedule (block : List Nat) : List Nat := extendSchedule 48 (toWords block)

def compressRound (k w : Nat) (st : List Nat) : List Nat :=
  match st with
  | [a, b, c, d, e, f, g, h] =>
      let ch := (e &&& f) ^^^ ((e ^^^ 4294967295) &&& g)
      let t1 := m32 (h + shaB1 e + ch + k + w)
      let maj := (a &&& b) ^^^ (a &&& c) ^^^ (b &&& c)
      let t2 := m32 (shaB0 a + maj)
      [m32 (t1 + t2), a, b, c, m32 (d + t1), e, f, g]
  | st => st

def compressBlock (h : List Nat) (block : List Nat) : List Nat :=
  let st := (List.zip shaK (mkSchedule block)).foldl
    (fun st kw => compressRound kw.1 kw.2 st) h
  List.zipWith (fun x y => m32 (x + y)) h st

def chunks64 (l : List Nat) : List (List Nat) :=
  if h : l = [] then [] else l.take 64 :: chunks64 (l.drop 64)
termination_by l.length
decreasing_by
  simp only [List.length_drop]
  have : l.length ≠ 0 := fun hl => h (List.eq_nil_of_length_eq_zero hl)
  omega

def sha256 (msg : List Nat) : List Nat :=
  ((chunks64 (padMsg msg)).foldl compressBlock shaH0).flatMap be32

/-! ### PKCE generation (`random_base64url`, `pkce_verifier`, `pkce_challenge_s256`) -/

def random_base64url (rnd : Nat → List Nat) (bytes : Nat) : String :=
  encodeB64url (rnd bytes)

def pkce_verifier (rnd : Nat → List Nat) : String :=
  -- 64 bytes -> ~86 chars, within 43..128 requirement.
  random_base64url rnd 64

def pkce_challenge_s256 (verifier : String) : String :=
  encodeB64url (sha256 (strBytes verifier))

/-! ### Request-line parsing (`req.lines().next()`, `split_whitespace`) -/

def isWs (c : Char) : Bool :=
  c = ' ' || c = Char.ofNat 9 || c = Char.ofNat 10 || c = Char.ofNat 13 ||
  c = Char.ofNat 11 || c = Char.ofNat 12

def splitWsAux : List Char → List Char → List String
  | [], [] => []
  | [], cur => [String.mk cur.reverse]
  | c :: rest, cur =>
      if isWs c then
        if cur.isEmpty then splitWsAux rest []
        else String.mk cur.reverse :: splitWsAux rest []
      else splitWsAux rest (c :: cur)

def splitWhitespace (s : String) : List String := splitWsAux s.data []

def takeUntilChar (c : Char) : List Char → List Char
  | [] => []
  | x :: rest => if x = c then [] else x :: takeUntilChar c rest

def afterChar (c : Char) : List Char → Option (List Char)
  | [] => none
  | x :: rest => if x = c then some rest else afterChar c rest

def stripTrailingCr (l : List Char) : List Char :=
  if l.getLast? = some (Char.ofNat 13) then l.dropLast else l

def firstLine (req : String) : String :=
  String.mk (stripTrailingCr (takeUntilChar (Char.ofNat 10) req.data))

def reqMethod (req : String) : String := (splitWhitespace (firstLine req)).getD 0 ""

def reqTarget (req : String) : String := (splitWhitespace (firstLine req)).getD 1 ""

/-- Rust's `str::starts_with` on a string pattern. -/
def startsWithList : List Char → List Char → Bool
  | _, [] => true
  | [], _ :: _ => false
  | x :: xs, y :: ys => x = y && startsWithList xs ys

def strStartsWith (s pat : String) : Bool := startsWithList s.data pat.data

/-! ### Query parsing (`url::Url::parse` + `query_pairs`)

`Url::parse` of `"http://127.0.0.1" ++ target` is modelled as always
succeeding; its `Err` branch (which answers with an "Invalid callback URL"
page and keeps listening) is not modelled.  The query is the part of the
target after the first `?` of the pre-fragment portion; `query_pairs`
splits it on `&`, skips empty pieces, splits each piece at its first `=`,
and percent-decodes keys and values (with `+` decoded as a space and the
decoded bytes read back as UTF-8, invalid sequences becoming U+FFFD). -/

def splitOnChar (c : Char) : List Char → List (List Char)
  | [] => [[]]
  | x :: rest =>
      let r := splitOnChar c rest
      if x = c then [] :: r
      else
        match r with
        | [] => [[x]]
        | h :: t => (x :: h) :: t

def hexVal (c : Char) : Option Nat :=
  if '0' ≤ c ∧ c ≤ '9' then some (c.toNat - 48)
  else if 'a' ≤ c ∧ c ≤ 'f' then some (c.toNat - 87)
  else if 'A' ≤ c ∧ c ≤ 'F' then some (c.toNat - 55)
  else none

def pctDecodeBytes : List Char → List Nat
  | '%' :: a :: b :: rest =>
      match hexVal a, hexVal b with
      | some x, some y => (16 * x + y) :: pctDecodeBytes rest
      | _, _ => utf8EncodeChar '%' ++ pctDecodeBytes (a :: b :: rest)
  | '+' :: rest => 32 :: pctDecodeBytes rest
  | c :: rest => utf8EncodeChar c ++ pctDecodeBytes rest
  | [] => []

def contByte (b : Nat) : Bool := 128 ≤ b && b ≤ 191

def replacementChar : Char := Char.ofNat 65533

def utf8DecodeAux : Nat → List Nat → List Char
  | 0, _ => []
  | _ + 1, [] => []
  | fuel + 1, b :: rest =>
      if b < 128 then Char.ofNat b :: utf8DecodeAux fuel rest
      else if 194 ≤ b && b ≤ 223 then
        match rest with
        | b2 :: rest2 =>
            if contByte b2 then
              Char.ofNat ((b - 192) * 64 + (b2 - 128)) :: utf8DecodeAux fuel rest2
            else replacementChar :: utf8DecodeAux fuel rest
        | [] => [replacementChar]
      else if 224 ≤ b && b ≤ 239 then
        match rest with
        | b2 :: b3 :: rest3 =>
            if (if b = 224 then 160 ≤ b2 && b2 ≤ 191
                else if b = 237 then 128 ≤ b2 && b2 ≤ 159
                else contByte b2) && contByte b3 then
              Char.ofNat ((b - 224) * 4096 + (b2 - 128) * 64 + (b3 - 128)) ::
                utf8DecodeAux fuel rest3
            else replacementChar :: utf8DecodeAux fuel rest
        | _ => [replacementChar]
      else if 240 ≤ b && b ≤ 244 then
        match rest with
        | b2 :: b3 :: b4 :: rest4 =>
            if (if b = 240 then 144 ≤ b2 && b2 ≤ 191
                else if b = 244 then 128 ≤ b2 && b2 ≤ 143
                else contByte b2) && contByte b3 && contByte b4 then
              Char.ofNat ((b - 240) * 262144 + (b2 - 128) * 4096 +
                          (b3 - 128) * 64 + (b4 - 128)) :: utf8DecodeAux fuel rest4
            else replacementChar :: utf8DecodeAux fuel rest
        | _ => [replacementChar]
      else replacementChar :: utf8DecodeAux fuel rest

def utf8DecodeLossy (bs : List Nat) : List Char := utf8DecodeAux bs.length bs

def decodeComponent (piece : List Char) : String :=
  String.mk (utf8DecodeLossy (pctDecodeBytes piece))

def queryString (target : String) : List Char :=
  match afterChar '?' (takeUntilChar '#' target.data) with
  | none => []
  | some q => q

def splitPair (piece : List Char) : List Char × List Char :=
  match afterChar '=' piece with
  | none => (piece, [])
  | some v => (takeUntilChar '=' piece, v)

def query_pairs (target : String) : List (String × String) :=
  ((splitOnChar '&' (queryString target)).filter (fun p => ! p.isEmpty)).map
    fun piece =>
      let kv := splitPair piece
      (decodeComponent kv.1, decodeComponent kv.2)

/-! ### HTML pages and responses (`success_html`, `error_html`, `html_escape`) -/

def replaceAllChar (c : Char) (r : List Char) : List Char → List Char
  | [] => []
  | x :: xs => if x = c then r ++ replaceAllChar c r xs else x :: replaceAllChar c r xs

/-- The five chained `str::replace` calls of `html_escape`, innermost
(`&`) first. -/
def escChain (l : List Char) : List Char :=
  replaceAllChar (Char.ofNat 39) "&#x27;".data
    (replaceAllChar (Char.ofNat 34) "&quot;".data
      (replaceAllChar '>' "&gt;".data
        (replaceAllChar '<' "&lt;".data
          (replaceAllChar '&' "&amp;".data l))))

def html_escape (s : String) : String := String.mk (escChain s.data)

def htmlErrPre : String :=
  "<!doctype html><html><head><meta charset=\"utf-8\" /><title>Pajama</title></head><body><h2>Login error</h2><p>"

def htmlErrPost : String := "</p></body></html>"

def error_html (msg : String) : String := htmlErrPre ++ html_escape msg ++ htmlErrPost

def success_html : String :=
  "<!doctype html><html><head><meta charset=\"utf-8\" /><title>Pajama</title></head><body><h2>Login complete</h2><p>You can close this window.</p></body></html>"

def buildResponse (body : String) : String :=
  "HTTP/1.1 200 OK\r\nContent-Type: text/html; charset=utf-8\r\nContent-Length: " ++
  toString (utf8Len body) ++ "\r\nConnection: close\r\n\r\n" ++ body

/-! ### Per-connection handling inside `wait_for_oauth_callback`'s accept loop -/

structure ConnOutcome where
  send_ok : Option String
  body : String
deriving DecidableEq, Repr

def extractCodeState (pairs : List (String × String)) : Option String × Option String :=
  pairs.foldl
    (fun cs kv =>
      if kv.1 = "code" then (some kv.2, cs.2)
      else if kv.1 = "state" then (cs.1, some kv.2)
      else cs)
    (none, none)

def handleConnection (expected_state : String) (req : String) : ConnOutcome :=
  let method := reqMethod req
  let target := reqTarget req
  if method = "GET" ∧ strStartsWith target "/callback" = true then
    let cs := extractCodeState (query_pairs target)
    if cs.2 ≠ some expected_state then
      ⟨none, error_html "State mismatch. You can close this window and retry."⟩
    else
      match cs.1 with
      | some code => ⟨some code, success_html⟩
      | none =>
          ⟨none, error_html "Missing authorization code. You can close this window and retry."⟩
  else ⟨none, error_html "Not found."⟩

/-! ### The accept loop (`wait_for_oauth_callback`'s spawned task)

An attempt's inbound traffic is a list of accept events: either an accepted
connection carrying the raw request bytes (as a string, after
`from_utf8_lossy`) or a failure of `accept()` itself.  The loop answers
each connection, and ends either by delivering the first validated code
(then processing nothing further) or by an accept failure (which delivers
an error).  The single-use `oneshot` slot is mirrored by the `Option`
result: at most one delivery can exist. -/

inductive AcceptEvent
  | conn (req : String)
  | acceptFailed
deriving DecidableEq, Repr

inductive Delivered
  | ok (code : String)
  | acceptErr
deriving DecidableEq, Repr

def runListener (expected : String) : List AcceptEvent → Option Delivered × List String
  | [] => (none, [])
  | .acceptFailed :: _ => (some .acceptErr, [])
  | .conn req :: rest =>
      let o := handleConnection expected req
      match o.send_ok with
      | some c => (some (.ok c), [o.body])
      | none =>
          let r := runListener expected rest
          (r.1, o.body :: r.2)

def listenerWires (expected : String) (events : List AcceptEvent) : List String :=
  ((runListener expected events).2).map buildResponse

/-! ### Attempt-level errors -/

inductive LoginError
  | registrationUnsupported
  | registrationFailed (status : Nat) (body : String)
  | bindFailed
  | acceptFailedErr
  | timeoutErr
  | tokenExchangeFailed (status : Nat) (body : String)
  | parseFailed
  | unexpectedTokenType (tt : String)
deriving DecidableEq, Repr

/-! ### The orchestrator's bounded wait

`wait_for_oauth_callback` wraps the `oneshot` receiver in
`tokio::time::timeout(Duration::from_secs(180), rx)`.  `readyAt` models the
instant (in seconds from the start of the wait) at which the listener's
single-use result becomes available; `none` means it never becomes
available in finite time.  A result ready only at or after the deadline is
preempted by the timeout. -/

def oauthCallbackTimeoutSecs : Nat := 180

def wait_for_oauth_callback (expected : String) (events : List AcceptEvent)
    (readyAt : Option Nat) : Except LoginError String :=
  match (runListener expected events).1 with
  | none => .error .timeoutErr
  | some d =>
      match readyAt with
      | none => .error .timeoutErr
      | some t =>
          if t < oauthCallbackTimeoutSecs then
            match d with
            | .ok c => .ok c
            | .acceptErr => .error .acceptFailedErr
          else .error .timeoutErr

/-! ### Token exchange (`serde_json` parse of `TokenResponse`, status and
token-type checks)

A JSON value is modelled by `Json`; the token endpoint's body is supplied
as an `Option Json` (`none` when the body is not valid JSON at all).
`parseTokenResponse` mirrors serde's derived deserializer for
`TokenResponse`: `access_token` and `token_type` are required strings,
`expires_in` an optional unsigned 64-bit integer, `scope` an optional
string; unknown fields are ignored; a missing or ill-typed required field
is a deserialization failure. -/

inductive Json
  | null
  | bool (b : Bool)
  | num (n : Int)
  | str (s : String)
  | arr (xs : List Json)
  | obj (fields : List (String × Json))

structure TokenResponse where
  access_token : String
  token_type : String
  expires_in : Option Nat
  scope : Option String
deriving DecidableEq, Repr

def jlookup (fields : List (String × Json)) (key : String) : Option Json :=
  (fields.find? (fun kv => kv.1 = key)).map (fun kv => kv.2)

def parseTokenResponse (j : Json) : Option TokenResponse :=
  match j with
  | .obj fields =>
      match jlookup fields "access_token", jlookup fields "token_type" with
      | some (.str tok), some (.str tty) =>
          let ei : Option (Option Nat) :=
            match jlookup fields "expires_in" with
            | none => some none
            | some .null => some none
            | some (.num n) =>
                if 0 ≤ n ∧ n < 18446744073709551616 then some (some n.toNat) else none
            | some _ => none
          let sc : Option (Option String) :=
            match jlookup fields "scope" with
            | none => some none
            | some .null => some none
            | some (.str s) => some (some s)
            | some _ => none
          match ei, sc with
          | some e, some s => some ⟨tok, tty, e, s⟩
          | _, _ => none
      | _, _ => none
  | _ => none

def is2xx (status : Nat) : Bool := 200 ≤ status && status ≤ 299

/-- Rust's `str::to_lowercase`, modelled on the ASCII range (the only
range exercised by the `token_type` comparison). -/
def toLowerAscii (s : String) : String :=
  String.mk (s.data.map fun c =>
    if 'A' ≤ c ∧ c ≤ 'Z' then Char.ofNat (c.toNat + 32) else c)

/-- Lines 307-326 of `oauth.rs`: status check, JSON parse, token-type
check, and the non-fatal `gdm_`-format warning.  The returned `Bool` is
true exactly when the warning is printed; the flow succeeds either way. -/
def handleTokenExchange (status : Nat) (bodyJson : Option Json) (bodyRaw : String) :
    Except LoginError (TokenResponse × Bool) :=
  if ¬ is2xx status then .error (.tokenExchangeFailed status bodyRaw)
  else
    match bodyJson with
    | none => .error .parseFailed
    | some j =>
        match parseTokenResponse j with
        | none => .error .parseFailed
        | some token =>
            if toLowerAscii token.token_type ≠ "bearer" then
              .error (.unexpectedTokenType token.token_type)
            else
              .ok (token, ! strStartsWith token.access_token "gdm_")

/-! ### The orchestrator (`login_oauth_pkce`) -/

structure OAuthMetadata where
  issuer : Option String
  authorization_endpoint : String
  token_endpoint : String
  registration_endpoint : Option String
deriving DecidableEq, Repr

structure LoginResult where
  access_token : String
  token_type : String
  expires_in : Option Nat
  scope : Option String
  client_id : String
deriving DecidableEq, Repr

/-- The environment a login attempt runs in: outcomes of the external
effects, in the order the source performs them. -/
structure LoginEnv where
  /-- Result of `register_client`, were it to be called. -/
  registerOutcome : Except LoginError String
  /-- `TcpListener::bind(("127.0.0.1", 0))`: the OS-assigned port, or
  `none` when binding fails. -/
  bindOutcome : Option Nat
  /-- `OsRng`: the bytes drawn for a request of each size. -/
  rnd : Nat → List Nat
  /-- The connections the loopback listener accepts. -/
  callbackEvents : List AcceptEvent
  /-- When the listener's one-shot result becomes available. -/
  callbackReadyAt : Option Nat
  /-- HTTP status of the token endpoint's reply. -/
  tokenStatus : Nat
  /-- Raw body of the token endpoint's reply. -/
  tokenBodyRaw : String
  /-- The same body as JSON, `none` when unparsable. -/
  tokenBodyJson : Option Json

/-- Observable trace of one attempt: which effects ran, with what
payloads, and the final result. -/
structure LoginTrace where
  registerCalled : Bool
  listenerBound : Bool
  authQuery : Option (List (String × String))
  listenerExpectedState : Option String
  tokenForm : Option (List (String × String))
  tokenWarning : Bool
  result : Except LoginError LoginResult

def redirectUriOf (port : Nat) : String :=
  "http://127.0.0.1:" ++ toString port ++ "/callback"

/-- Lines 238-246 of `oauth.rs`: reuse a supplied client id, otherwise
require a registration endpoint and register.  The `Bool` records whether
a registration request was made. -/
def resolveClientId (meta : OAuthMetadata) (existing_client_id : Option String)
    (registerOutcome : Except LoginError String) : Except LoginError String × Bool :=
  match existing_client_id with
  | some cid => (.ok cid, false)
  | none =>
      match meta.registration_endpoint with
      | none => (.error .registrationUnsupported, false)
      | some _ => (registerOutcome, true)

def login_oauth_pkce (meta : OAuthMetadata) (existing_client_id : Option String)
    (scope : String) (env : LoginEnv) : LoginTrace :=
  let cidStep := resolveClientId meta existing_client_id env.registerOutcome
  match cidStep.1 with
  | .error e =>
      { registerCalled := cidStep.2, listenerBound := false, authQuery := none,
        listenerExpectedState := none, tokenForm := none, tokenWarning := false,
        result := .error e }
  | .ok client_id =>
      match env.bindOutcome with
      | none =>
          { registerCalled := cidStep.2, listenerBound := false, authQuery := none,
            listenerExpectedState := none, tokenForm := none, tokenWarning := false,
            result := .error .bindFailed }
      | some port =>
          let redirect_uri := redirectUriOf port
          let state := random_base64url env.rnd 18
          let verifier := pkce_verifier env.rnd
          let challenge := pkce_challenge_s256 verifier
          let authQ := [("response_type", "code"), ("client_id", client_id),
                        ("redirect_uri", redirect_uri), ("scope", scope),
                        ("state", state), ("code_challenge", challenge),
                        ("code_challenge_method", "S256")]
          match wait_for_oauth_callback state env.callbackEvents env.callbackReadyAt with
          | .error e =>
              { registerCalled := cidStep.2, listenerBound := true,
                authQuery := some authQ, listenerExpectedState := some state,
                tokenForm := none, tokenWarning := false, result := .error e }
          | .ok code =>
              let form := [("grant_type", "authorization_code"), ("code", code),
                           ("redirect_uri", redirect_uri), ("code_verifier", verifier),
                           ("client_id", client_id)]
              match handleTokenExchange env.tokenStatus env.tokenBodyJson env.tokenBodyRaw with
              | .error e =>
                  { registerCalled := cidStep.2, listenerBound := true,
                    authQuery := some authQ, listenerExpectedState := some state,
                    tokenForm := some form, tokenWarning := false, result := .error e }
              | .ok tk =>
                  { registerCalled := cidStep.2, listenerBound := true,
                    authQuery := some authQ, listenerExpectedState := some state,
                    tokenForm := some form, tokenWarning := tk.2,
                    result := .ok { access_token := tk.1.access_token,
                                    token_type := tk.1.token_type,
                                    expires_in := tk.1.expires_in,
                                    scope := tk.1.scope,
                                    client_id := client_id } }

/-- The value of a query or form parameter, `none` when the parameter list
itself is absent. -/
def qparam (key : String) (oq : Option (List (String × String))) : Option String :=
  oq.bind fun q => (q.find? (fun kv => kv.1 = key)).map (fun kv => kv.2)

/-! ### Specification-side helpers used to state the claims -/

/-- The last value a query assigns to `key` (claims compare the code's
overwrite-on-iteration extraction against this). -/
def lastParamValue (key : String) (pairs : List (String × String)) : Option String :=
  ((pairs.filter (fun kv => kv.1 = key)).getLast?).map (fun kv => kv.2)

/-- The URL path of a request target: everything before the query and
fragment. -/
def targetPath (target : String) : String :=
  String.mk (takeUntilChar '?' (takeUntilChar '#' target.data))

/-- Character-by-character HTML escaping, as the spec words it. -/
def escapeChar (c : Char) : List Char :=
  if c = '&' then "&amp;".data
  else if c = '<' then "&lt;".data
  else if c = '>' then "&gt;".data
  else if c = Char.ofNat 34 then "&quot;".data
  else if c = Char.ofNat 39 then "&#x27;".data
  else [c]

def escapeSpec (l : List Char) : List Char := l.flatMap escapeChar

/-- An accept event that neither delivers a code nor ends the loop. -/
def nonDelivering (expected : String) : AcceptEvent → Bool
  | .conn req => ((handleConnection expected req).send_ok).isNone
  | .acceptFailed => false

/-- The `state` value the callback validation sees for a raw request: the
last `state` assignment surviving the query-pair iteration. -/
def stateOfReq (req : String) : Option String :=
  (extractCodeState (query_pairs (reqTarget req))).2

/-- The `code` value the callback extraction sees for a raw request. -/
def codeOfReq (req : String) : Option String :=
  (extractCodeState (query_pairs (reqTarget req))).1

/-! ### Concrete sample data (used to instantiate the theorems) -/

def sampleMeta : OAuthMetadata :=
  { issuer := none, authorization_endpoint := "https://auth.example/authorize",
    token_endpoint := "https://auth.example/token", registration_endpoint := none }

def sampleEnv : LoginEnv :=
  { registerOutcome := .error (.registrationFailed 500 ""),
    bindOutcome := none,
    rnd := fun n => List.replicate n 0,
    callbackEvents := [],
    callbackReadyAt := none,
    tokenStatus := 200,
    tokenBodyRaw := "",
    tokenBodyJson := none }

def sampleEnvOk : LoginEnv :=
  { registerOutcome := .ok "registered-cid",
    bindOutcome := some 7777,
    rnd := fun n => List.replicate n 0,
    callbackEvents :=
      [.conn "GET /callback?state=AAAAAAAAAAAAAAAAAAAAAAAA&code=abc HTTP/1.1\r\n\r\n"],
    callbackReadyAt := some 1,
    tokenStatus := 200,
    tokenBodyRaw := "body",
    tokenBodyJson := some (.obj [("access_token", .str "gdm_tok"),
                                 ("token_type", .str "Bearer")]) }

/-! ## Theorems -/

/-! ### Accept-loop lemmas -/

theorem runListener_conn_nondeliver (expected req : String) (evs : List AcceptEvent)
    (h : (handleConnection expected req).send_ok = none) :
    runListener expected (.conn req :: evs) =
      ((runListener expected evs).1,
       (handleConnection expected req).body :: (runListener expected evs).2) := by
  simp [runListener, h]

theorem runListener_conn_deliver (expected req c : String) (evs : List AcceptEvent)
    (h : (handleConnection expected req).send_ok = some c) :
    runListener expected (.conn req :: evs) =
      (some (.ok c), [(handleConnection expected req).body]) := by
  simp [runListener, h]

/-- C2: at most one result is ever delivered per attempt (the one-shot
slot is an `Option`, so a second delivery is structurally impossible), and
once a connection delivers a code the accept loop terminates: any events
after the delivering connection change nothing. -/
theorem c2_single_delivery (expected req c : String) (pre rest : List AcceptEvent)
    (hpre : ∀ e ∈ pre, nonDelivering expected e = true)
    (hreq : (handleConnection expected req).send_ok = some c) :
    runListener expected (pre ++ .conn req :: rest) =
      runListener expected (pre ++ [.conn req])
    ∧ (runListener expected (pre ++ .conn req :: rest)).1 = some (.ok c)
    ∧ ∀ evs : List AcceptEvent, ((runListener expected evs).1.toList).length ≤ 1 := by
  have key : ∀ pre : List AcceptEvent, (∀ e ∈ pre, nonDelivering expected e = true) →
      runListener expected (pre ++ .conn req :: rest) =
        runListener expected (pre ++ [.conn req])
      ∧ (runListener expected (pre ++ .conn req :: rest)).1 = some (.ok c) := by
    intro pre
    induction pre with
    | nil =>
        intro _
        rw [List.nil_append, List.nil_append,
            runListener_conn_deliver _ _ _ _ hreq, runListener_conn_deliver _ _ _ _ hreq]
        exact ⟨rfl, rfl⟩
    | cons e pre ih =>
        intro hp
        have he : nonDelivering expected e = true := hp e (by simp)
        obtain ⟨ih1, ih2⟩ := ih (fun x hx => hp x (by simp [hx]))
        cases e with
        | conn r =>
            have hn : (handleConnection expected r).send_ok = none := by
              simpa [nonDelivering, Option.isNone_iff_eq_none] using he
            rw [List.cons_append, List.cons_append,
                runListener_conn_nondeliver _ _ _ hn, runListener_conn_nondeliver _ _ _ hn]
            exact ⟨by rw [ih1], by simpa using ih2⟩
        | acceptFailed => simp [nonDelivering] at he
  obtain ⟨k1, k2⟩ := key pre hpre
  exact ⟨k1, k2, fun evs => by cases h : (runListener expected evs).1 <;> simp [h]⟩

/-- A demonstrateable instance of C2: a mismatching connection, then a
valid one, then a further connection that is never processed. -/
theorem c2_witness :
    runListener "y" ([.conn "GET /callback?state=x HTTP/1.1\r\n\r\n"] ++
        .conn "GET /callback?state=y&code=abc HTTP/1.1\r\n\r\n" ::
        [.conn "GET /callback?state=y&code=zzz HTTP/1.1\r\n\r\n"]) =
      runListener "y" ([.conn "GET /callback?state=x HTTP/1.1\r\n\r\n"] ++
        [.conn "GET /callback?state=y&code=abc HTTP/1.1\r\n\r\n"]) :=
  (c2_single_delivery "y" "GET /callback?state=y&code=abc HTTP/1.1\r\n\r\n" "abc"
    [.conn "GET /callback?state=x HTTP/1.1\r\n\r\n"]
    [.conn "GET /callback?state=y&code=zzz HTTP/1.1\r\n\r\n"]
    (by decide) (by decide)).1

/-! ### C1: state mismatch rejects one connection, not the attempt -/

theorem handleConnection_mismatch (expected req : String)
    (hM : reqMethod req = "GET") (hT : strStartsWith (reqTarget req) "/callback" = true)
    (hS : stateOfReq req ≠ some expected) :
    handleConnection expected req =
      ⟨none, error_html "State mismatch. You can close this window and retry."⟩ := by
  simp only [stateOfReq] at hS
  simp [handleConnection, hM, hT, hS]

theorem handleConnection_deliver (expected req code : String)
    (hM : reqMethod req = "GET") (hT : strStartsWith (reqTarget req) "/callback" = true)
    (hS : stateOfReq req = some expected) (hC : codeOfReq req = some code) :
    handleConnection expected req = ⟨some code, success_html⟩ := by
  simp only [stateOfReq] at hS
  simp only [codeOfReq] at hC
  simp [handleConnection, hM, hT, hS, hC]

/-- C1: a `GET /callback` connection whose (last) `state` differs from the
expected one is answered with the state-mismatch page and leaves the rest
of the attempt exactly as it would have been (the attempt is not aborted),
while a connection carrying the matching state and a code makes the
attempt succeed with exactly that code. -/
theorem c1_state_mismatch_keeps_listening (expected a b code : String)
    (evs : List AcceptEvent)
    (haM : reqMethod a = "GET") (haT : strStartsWith (reqTarget a) "/callback" = true)
    (haS : stateOfReq a ≠ some expected)
    (hbM : reqMethod b = "GET") (hbT : strStartsWith (reqTarget b) "/callback" = true)
    (hbS : stateOfReq b = some expected) (hbC : codeOfReq b = some code) :
    runListener expected (.conn a :: evs) =
      ((runListener expected evs).1,
       error_html "State mismatch. You can close this window and retry." ::
         (runListener expected evs).2)
    ∧ runListener expected [.conn a, .conn b] =
        (some (.ok code),
         [error_html "State mismatch. You can close this window and retry.", success_html]) := by
  have ha := handleConnection_mismatch expected a haM haT haS
  have hb := handleConnection_deliver expected b code hbM hbT hbS hbC
  constructor
  · rw [runListener_conn_nondeliver _ _ _ (by rw [ha])]
    rw [ha]
  · rw [runListener_conn_nondeliver _ _ _ (by rw [ha]),
        runListener_conn_deliver _ _ code _ (by rw [hb]), ha, hb]

/-- C1 at the spec's own scenario: expected state `"y"`, connection A with
`state=x`, connection B with `state=y&code=abc`. -/
theorem c1_witness :
    runListener "y" [.conn "GET /callback?state=x HTTP/1.1\r\n\r\n",
                     .conn "GET /callback?state=y&code=abc HTTP/1.1\r\n\r\n"] =
      (some (.ok "abc"),
       [error_html "State mismatch. You can close this window and retry.", success_html]) :=
  (c1_state_mismatch_keeps_listening "y"
    "GET /callback?state=x HTTP/1.1\r\n\r\n"
    "GET /callback?state=y&code=abc HTTP/1.1\r\n\r\n" "abc" []
    (by decide) (by decide) (by decide) (by decide) (by decide) (by decide) (by decide)).2

/-! ### C5: dispatch is by method and a `/callback` *prefix* of the target -/

/-- C5 as stated is false: the code only checks
`target.starts_with("/callback")`, so a `GET` request whose path is
`/callbackX` (not `/callback`) is not answered with the "not found" page —
with a matching state and a code it even delivers the code. -/
theorem c5_counterexample :
    reqMethod "GET /callbackX?state=y&code=abc HTTP/1.1\r\nHost: h\r\n\r\n" = "GET"
    ∧ targetPath (reqTarget "GET /callbackX?state=y&code=abc HTTP/1.1\r\nHost: h\r\n\r\n") ≠
        "/callback"
    ∧ (handleConnection "y" "GET /callbackX?state=y&code=abc HTTP/1.1\r\nHost: h\r\n\r\n").body ≠
        error_html "Not found."
    ∧ (handleConnection "y" "GET /callbackX?state=y&code=abc HTTP/1.1\r\nHost: h\r\n\r\n").send_ok =
        some "abc" := by
  exact ⟨by decide, by decide, by decide, by decide⟩

/-- C5, amended: if the method is not `GET` or the target does not *start
with* `/callback`, the listener answers with the generic "not found" page,
delivers nothing, and continues listening unchanged. -/
theorem c5_not_found_dispatch (expected req : String) (evs : List AcceptEvent)
    (h : ¬ (reqMethod req = "GET" ∧ strStartsWith (reqTarget req) "/callback" = true)) :
    handleConnection expected req = ⟨none, error_html "Not found."⟩
    ∧ runListener expected (.conn req :: evs) =
        ((runListener expected evs).1,
         error_html "Not found." :: (runListener expected evs).2) := by
  have hc : handleConnection expected req = ⟨none, error_html "Not found."⟩ := by
    simp only [handleConnection]
    rw [if_neg h]
  refine ⟨hc, ?_⟩
  rw [runListener_conn_nondeliver _ _ _ (by rw [hc]), hc]

/-- C5's amended behavior on a wrong-path request from the spec's timeout
scenario (`GET /favicon.ico`). -/
theorem c5_witness :
    handleConnection "y" "GET /favicon.ico HTTP/1.1\r\n\r\n" =
      ⟨none, error_html "Not found."⟩ :=
  (c5_not_found_dispatch "y" "GET /favicon.ico HTTP/1.1\r\n\r\n" [] (by decide)).1

/-! ### C10: query-pair iteration keeps the last occurrence -/

theorem getLast?_cons_or {α : Type} (a : α) (l : List α) :
    (a :: l).getLast? = l.getLast?.or (some a) := by
  induction l with
  | nil => rfl
  | cons b t ih =>
      rw [List.getLast?_cons_cons]
      cases h : (b :: t).getLast? with
      | none =>
          exfalso
          have : (b :: t) = [] := by
            simpa using List.getLast?_eq_none_iff.mp h
          simp at this
      | some x => simp [Option.or]

theorem lastParamValue_cons (key k v : String) (rest : List (String × String)) :
    lastParamValue key ((k, v) :: rest) =
      (lastParamValue key rest).or (if k = key then some v else none) := by
  by_cases hk : k = key
  · subst hk
    cases h : (rest.filter (fun kv => kv.1 = k)).getLast? with
    | none => simp [lastParamValue, List.filter_cons, getLast?_cons_or, h]
    | some x => simp [lastParamValue, List.filter_cons, getLast?_cons_or, h]
  · simp [lastParamValue, List.filter_cons, hk]

theorem extract_foldl_or (pairs : List (String × String)) :
    ∀ acc : Option String × Option String,
      pairs.foldl
        (fun cs kv =>
          if kv.1 = "code" then (some kv.2, cs.2)
          else if kv.1 = "state" then (cs.1, some kv.2)
          else cs) acc =
      ((lastParamValue "code" pairs).or acc.1, (lastParamValue "state" pairs).or acc.2) := by
  induction pairs with
  | nil => intro acc; simp [lastParamValue]
  | cons kv rest ih =>
      intro acc
      obtain ⟨k, v⟩ := kv
      rw [List.foldl_cons, ih, lastParamValue_cons, lastParamValue_cons,
          Option.or_assoc, Option.or_assoc]
      by_cases hk1 : k = "code"
      · subst hk1; simp
      · by_cases hk2 : k = "state"
        · subst hk2; simp
        · simp [hk1, hk2]

theorem extractCodeState_eq_last (pairs : List (String × String)) :
    extractCodeState pairs = (lastParamValue "code" pairs, lastParamValue "state" pairs) := by
  unfold extractCodeState
  rw [extract_foldl_or]
  simp

/-- C10: the per-pair iteration overwrites earlier `code`/`state` values,
so extraction yields the last occurrence of each parameter, and a
`GET /callback` request delivers code `c` exactly when its last `state`
value equals the expected state and its last `code` value is `c`. -/
theorem c10_last_occurrence_wins (expected req c : String)
    (pairs : List (String × String))
    (hM : reqMethod req = "GET") (hT : strStartsWith (reqTarget req) "/callback" = true) :
    extractCodeState pairs = (lastParamValue "code" pairs, lastParamValue "state" pairs)
    ∧ ((handleConnection expected req).send_ok = some c ↔
        lastParamValue "state" (query_pairs (reqTarget req)) = some expected ∧
        lastParamValue "code" (query_pairs (reqTarget req)) = some c) := by
  refine ⟨extractCodeState_eq_last pairs, ?_⟩
  simp only [handleConnection, hM, hT, extractCodeState_eq_last]
  by_cases hs : lastParamValue "state" (query_pairs (reqTarget req)) = some expected
  · cases hc : lastParamValue "code" (query_pairs (reqTarget req)) with
    | none => simp [hs, hc]
    | some c0 => simp [hs, hc]
  · simp [hs]

/-- C10 on a query with duplicated parameters: the request is accepted
with the last `code` because the last `state` matches. -/
theorem c10_witness :
    (handleConnection "y" "GET /callback?code=a&state=x&code=b&state=y HTTP/1.1\r\n\r\n").send_ok =
      some "b" :=
  (c10_last_occurrence_wins "y" "GET /callback?code=a&state=x&code=b&state=y HTTP/1.1\r\n\r\n"
      "b" [] (by decide) (by decide)).2.mpr ⟨by decide, by decide⟩

/-! ### C8: response shape and HTML escaping -/

theorem replaceAllChar_append (c : Char) (r a b : List Char) :
    replaceAllChar c r (a ++ b) = replaceAllChar c r a ++ replaceAllChar c r b := by
  induction a with
  | nil => rfl
  | cons x xs ih =>
      by_cases hx : x = c <;> simp [replaceAllChar, hx, ih]

theorem escChain_append (a b : List Char) :
    escChain (a ++ b) = escChain a ++ escChain b := by
  simp [escChain, replaceAllChar_append]

theorem replaceAllChar_single_ne (c : Char) (r : List Char) (x : Char) (h : x ≠ c) :
    replaceAllChar c r [x] = [x] := by
  simp [replaceAllChar, h]

theorem escChain_eq_escapeSpec (l : List Char) : escChain l = escapeSpec l := by
  induction l with
  | nil => rfl
  | cons x xs ih =>
      have hsplit : x :: xs = [x] ++ xs := rfl
      have happ : escapeSpec ([x] ++ xs) = escapeSpec [x] ++ escapeSpec xs := by
        simp [escapeSpec]
      rw [hsplit, escChain_append, happ, ih]
      congr 1
      by_cases h1 : x = '&'
      · subst h1; decide
      · by_cases h2 : x = '<'
        · subst h2; decide
        · by_cases h3 : x = '>'
          · subst h3; decide
          · by_cases h4 : x = Char.ofNat 34
            · subst h4; decide
            · by_cases h5 : x = Char.ofNat 39
              · subst h5; decide
              · rw [show escChain [x] =
                      replaceAllChar (Char.ofNat 39) "&#x27;".data
                        (replaceAllChar (Char.ofNat 34) "&quot;".data
                          (replaceAllChar '>' "&gt;".data
                            (replaceAllChar '<' "&lt;".data
                              (replaceAllChar '&' "&amp;".data [x])))) from rfl,
                    replaceAllChar_single_ne _ _ _ h1, replaceAllChar_single_ne _ _ _ h2,
                    replaceAllChar_single_ne _ _ _ h3, replaceAllChar_single_ne _ _ _ h4,
                    replaceAllChar_single_ne _ _ _ h5]
                simp [escapeSpec, escapeChar, h1, h2, h3, h4, h5]

theorem handleConnection_body_shape (expected req : String) :
    (handleConnection expected req).body = success_html ∨
      ∃ msg, (handleConnection expected req).body = error_html msg := by
  simp only [handleConnection]
  split
  · split
    · exact .inr ⟨_, rfl⟩
    · split
      · exact .inl rfl
      · exact .inr ⟨_, rfl⟩
  · exact .inr ⟨_, rfl⟩

theorem runListener_body_kinds (expected : String) (evs : List AcceptEvent) :
    ∀ body ∈ (runListener expected evs).2,
      body = success_html ∨ ∃ msg, body = error_html msg := by
  induction evs with
  | nil => simp [runListener]
  | cons e rest ih =>
      cases e with
      | acceptFailed => simp [runListener]
      | conn req =>
          cases h : (handleConnection expected req).send_ok with
          | some code =>
              rw [runListener_conn_deliver _ _ _ _ h]
              intro body hb
              rw [List.mem_singleton.mp hb]
              exact handleConnection_body_shape expected req
          | none =>
              rw [runListener_conn_nondeliver _ _ _ h]
              intro body hb
              rcases List.mem_cons.mp hb with hb | hb
              · rw [hb]; exact handleConnection_body_shape expected req
              · exact ih body hb

/-- C8: every response the listener writes is `200 OK` with the
`text/html; charset=utf-8` content type, a `Content-Length` equal to the
body's byte length, and `Connection: close`; every body is the success
page or an error page, and an error page embeds its message only after
replacing `&`, `<`, `>`, `"` and `'` by their HTML entities. -/
theorem c8_responses (expected : String) (evs : List AcceptEvent) (w : String)
    (hw : w ∈ listenerWires expected evs) :
    (∃ body, w = buildResponse body
      ∧ buildResponse body =
          "HTTP/1.1 200 OK\r\nContent-Type: text/html; charset=utf-8\r\nContent-Length: " ++
          toString (strBytes body).length ++ "\r\nConnection: close\r\n\r\n" ++ body
      ∧ (body = success_html ∨ ∃ msg, body = error_html msg))
    ∧ (∀ msg, error_html msg = htmlErrPre ++ html_escape msg ++ htmlErrPost)
    ∧ (∀ msg, (html_escape msg).data = escapeSpec msg.data) := by
  refine ⟨?_, fun msg => rfl, fun msg => escChain_eq_escapeSpec msg.data⟩
  obtain ⟨body, hmem, rfl⟩ := List.mem_map.mp hw
  exact ⟨body, rfl, rfl, runListener_body_kinds expected evs body hmem⟩

set_option maxRecDepth 8192 in
/-- C8 on a concrete connection: the not-found response to a non-callback
request. -/
theorem c8_witness :
    ∃ body,
      buildResponse (error_html "Not found.") = buildResponse body
      ∧ buildResponse body =
          "HTTP/1.1 200 OK\r\nContent-Type: text/html; charset=utf-8\r\nContent-Length: " ++
          toString (strBytes body).length ++ "\r\nConnection: close\r\n\r\n" ++ body
      ∧ (body = success_html ∨ ∃ msg, body = error_html msg) :=
  (c8_responses "y" [.conn "GET /other HTTP/1.1\r\n\r\n"]
    (buildResponse (error_html "Not found.")) (by decide)).1

/-! ### C3: PKCE verifier and challenge -/

theorem b64urlEncodeBytes_length : ∀ bs : List Nat,
    (b64urlEncodeBytes bs).length = (4 * bs.length + 2) / 3
  | [] => by simp [b64urlEncodeBytes]
  | [a] => by simp [b64urlEncodeBytes]
  | [a, b] => by simp [b64urlEncodeBytes]
  | a :: b :: c :: rest => by
      have ih := b64urlEncodeBytes_length rest
      simp only [b64urlEncodeBytes, List.length_cons, ih]
      omega

theorem b64Char_mem (n : Nat) : b64Char n ∈ b64Alphabet := by
  by_cases h : n < 64
  · interval_cases n <;> decide
  · have hlen : b64Alphabet.length ≤ n := by
      have : b64Alphabet.length = 64 := by decide
      omega
    rw [b64Char, List.getD_eq_default _ _ hlen]
    decide

theorem b64urlEncodeBytes_alphabet : ∀ bs : List Nat,
    ∀ c ∈ b64urlEncodeBytes bs, c ∈ b64Alphabet
  | [] => by simp [b64urlEncodeBytes]
  | [a] => by
      intro c hc
      simp only [b64urlEncodeBytes, List.mem_cons, List.not_mem_nil, or_false] at hc
      rcases hc with h | h <;> (subst h; exact b64Char_mem _)
  | [a, b] => by
      intro c hc
      simp only [b64urlEncodeBytes, List.mem_cons, List.not_mem_nil, or_false] at hc
      rcases hc with h | h | h <;> (subst h; exact b64Char_mem _)
  | a :: b :: c :: rest => by
      intro x hx
      simp only [b64urlEncodeBytes, List.mem_cons] at hx
      rcases hx with h | h | h | h | h
      · subst h; exact b64Char_mem _
      · subst h; exact b64Char_mem _
      · subst h; exact b64Char_mem _
      · subst h; exact b64Char_mem _
      · exact b64urlEncodeBytes_alphabet rest x h

/-- C3: the verifier is the unpadded base64url encoding of the 64 random
bytes drawn for it; its length is 86, inside [43, 128]; all its characters
come from the base64url alphabet `[A-Za-z0-9_-]`; and the challenge is the
unpadded base64url encoding of the SHA-256 digest of the verifier's
bytes. -/
theorem c3_pkce_pair (rnd : Nat → List Nat) (h64 : (rnd 64).length = 64) :
    pkce_verifier rnd = encodeB64url (rnd 64)
    ∧ (pkce_verifier rnd).length = 86
    ∧ 43 ≤ (pkce_verifier rnd).length ∧ (pkce_verifier rnd).length ≤ 128
    ∧ (∀ c ∈ (pkce_verifier rnd).data, c ∈ b64Alphabet)
    ∧ pkce_challenge_s256 (pkce_verifier rnd) =
        encodeB64url (sha256 (strBytes (pkce_verifier rnd))) := by
  have hlen : (pkce_verifier rnd).length = 86 := by
    show (b64urlEncodeBytes (rnd 64)).length = 86
    rw [b64urlEncodeBytes_length, h64]
  refine ⟨rfl, hlen, by omega, by omega, ?_, rfl⟩
  intro c hc
  exact b64urlEncodeBytes_alphabet (rnd 64) c hc

/-- C3 instantiated at a concrete byte oracle. -/
theorem c3_witness :
    (pkce_verifier (fun n => List.replicate n 0)).length = 86 :=
  (c3_pkce_pair (fun n => List.replicate n 0) (by simp)).2.1

/-! ### C6: token exchange outcomes -/

/-- C6 as stated is false at a 2xx body that is valid JSON with
`token_type` ≠ "bearer" but no `access_token`: deserialization of the
required `access_token` field fails first, so the code reports a parse
error, not the unexpected-token-type error the claim (and the spec's
`{"token_type":"mac"}` scenario) prescribes. -/
theorem c6_counterexample :
    handleTokenExchange 200 (some (Json.obj [("token_type", Json.str "mac")])) "raw" =
      .error .parseFailed
    ∧ handleTokenExchange 200 (some (Json.obj [("token_type", Json.str "mac")])) "raw" ≠
        .error (.unexpectedTokenType "mac") := by
  have h1 : handleTokenExchange 200 (some (Json.obj [("token_type", Json.str "mac")])) "raw" =
      .error .parseFailed := rfl
  refine ⟨h1, ?_⟩
  rw [h1]
  simp

/-- C6, amended: non-2xx fails with the status and body; a 2xx body that
is not JSON, or does not deserialize to a token response (in particular
one missing `access_token`), fails with a parse error; a deserialized
response whose `token_type` is not case-insensitively "bearer" fails with
the unexpected-token-type error; otherwise the exchange succeeds, with a
non-fatal warning exactly when the token does not start with `gdm_`. -/
theorem c6_token_exchange (status : Nat) (j : Json) (raw : String) (t : TokenResponse) :
    (¬ is2xx status = true →
      ∀ jb, handleTokenExchange status jb raw = .error (.tokenExchangeFailed status raw))
    ∧ (is2xx status = true → handleTokenExchange status none raw = .error .parseFailed)
    ∧ (is2xx status = true → parseTokenResponse j = none →
        handleTokenExchange status (some j) raw = .error .parseFailed)
    ∧ (is2xx status = true → parseTokenResponse j = some t →
        toLowerAscii t.token_type ≠ "bearer" →
        handleTokenExchange status (some j) raw = .error (.unexpectedTokenType t.token_type))
    ∧ (is2xx status = true → parseTokenResponse j = some t →
        toLowerAscii t.token_type = "bearer" →
        handleTokenExchange status (some j) raw =
          .ok (t, ! strStartsWith t.access_token "gdm_")) := by
  refine ⟨?_, ?_, ?_, ?_, ?_⟩
  · intro h jb; simp [handleTokenExchange, h]
  · intro h; simp [handleTokenExchange, h]
  · intro h hp; simp [handleTokenExchange, h, hp]
  · intro h hp ht; simp [handleTokenExchange, h, hp, ht]
  · intro h hp ht; simp [handleTokenExchange, h, hp, ht]

/-- C6's amended behavior at the spec's success scenario and at a
non-2xx reply. -/
theorem c6_witness :
    handleTokenExchange 200
        (some (.obj [("access_token", .str "tok123"), ("token_type", .str "Bearer")])) "" =
      .ok ({ access_token := "tok123", token_type := "Bearer",
             expires_in := none, scope := none }, true)
    ∧ handleTokenExchange 500 none "boom" = .error (.tokenExchangeFailed 500 "boom") := by
  constructor
  · exact (c6_token_exchange 200
      (.obj [("access_token", .str "tok123"), ("token_type", .str "Bearer")]) ""
      { access_token := "tok123", token_type := "Bearer",
        expires_in := none, scope := none }).2.2.2.2 (by decide) (by decide) (by decide)
  · exact (c6_token_exchange 500 .null "boom"
      { access_token := "", token_type := "", expires_in := none, scope := none }).1
      (by decide) none

/-! ### C9: the 180-second wait bound -/

/-- C9 as stated is false when `accept()` itself fails: no valid callback
has delivered a code, yet the attempt fails with the accept-failure error,
not the timeout error. -/
theorem c9_counterexample :
    (runListener "y" [AcceptEvent.acceptFailed]).1 = some .acceptErr
    ∧ wait_for_oauth_callback "y" [AcceptEvent.acceptFailed] (some 0) =
        .error .acceptFailedErr
    ∧ wait_for_oauth_callback "y" [AcceptEvent.acceptFailed] (some 0) ≠
        .error .timeoutErr := by
  have h1 : wait_for_oauth_callback "y" [AcceptEvent.acceptFailed] (some 0) =
      .error .acceptFailedErr := rfl
  refine ⟨rfl, h1, ?_⟩
  rw [h1]
  simp

/-- C9, amended: the orchestrator's wait is bounded by exactly 180
seconds, and whenever the listener's single-use result is not available
strictly before that deadline the attempt fails with the timeout error.
(If the accept loop fails within the budget, the attempt instead fails
earlier with an accept-failure error.) -/
theorem c9_timeout (expected : String) (events : List AcceptEvent) (readyAt : Option Nat)
    (h : (runListener expected events).1 = none ∨ readyAt = none ∨
         ∀ t, readyAt = some t → oauthCallbackTimeoutSecs ≤ t) :
    oauthCallbackTimeoutSecs = 180
    ∧ wait_for_oauth_callback expected events readyAt = .error .timeoutErr := by
  refine ⟨rfl, ?_⟩
  rcases h with h | h | h
  · simp [wait_for_oauth_callback, h]
  · rcases hr : (runListener expected events).1 with _ | d <;>
      simp [wait_for_oauth_callback, hr, h]
  · rcases hr : (runListener expected events).1 with _ | d
    · simp [wait_for_oauth_callback, hr]
    · rcases hra : readyAt with _ | t
      · simp [wait_for_oauth_callback, hr, hra]
      · have ht := h t hra
        simp [wait_for_oauth_callback, hr, hra, Nat.not_lt.mpr ht]

/-- C9's amended behavior when nothing ever arrives. -/
theorem c9_witness :
    oauthCallbackTimeoutSecs = 180
    ∧ wait_for_oauth_callback "y" [] none = .error .timeoutErr :=
  c9_timeout "y" [] none (.inl rfl)

/-! ### C7: client resolution -/

/-- C7: a cached client id is used unchanged and no registration request
is made; with no cached id and no registration endpoint the attempt fails
with the registration-unsupported error before the listener is bound and
before any authorization or token traffic. -/
theorem c7_client_resolution (meta : OAuthMetadata) (scope : String) (env : LoginEnv) :
    (∀ cid, (login_oauth_pkce meta (some cid) scope env).registerCalled = false
      ∧ ∀ r, (login_oauth_pkce meta (some cid) scope env).result = .ok r →
          r.client_id = cid)
    ∧ (meta.registration_endpoint = none →
        login_oauth_pkce meta none scope env =
          { registerCalled := false, listenerBound := false, authQuery := none,
            listenerExpectedState := none, tokenForm := none, tokenWarning := false,
            result := .error .registrationUnsupported }) := by
  constructor
  · intro cid
    simp only [login_oauth_pkce, resolveClientId]
    cases env.bindOutcome with
    | none => exact ⟨rfl, by intro r h; cases h⟩
    | some port =>
        cases hw : wait_for_oauth_callback (random_base64url env.rnd 18)
            env.callbackEvents env.callbackReadyAt with
        | error e => exact ⟨rfl, by intro r h; cases h⟩
        | ok code =>
            cases ht : handleTokenExchange env.tokenStatus env.tokenBodyJson env.tokenBodyRaw with
            | error e => exact ⟨rfl, by intro r h; cases h⟩
            | ok tk =>
                refine ⟨rfl, ?_⟩
                intro r h
                cases h
                rfl
  · intro h
    simp [login_oauth_pkce, resolveClientId, h]

/-- C7 at concrete metadata without a registration endpoint. -/
theorem c7_witness :
    login_oauth_pkce sampleMeta none "memory" sampleEnv =
      { registerCalled := false, listenerBound := false, authQuery := none,
        listenerExpectedState := none, tokenForm := none, tokenWarning := false,
        result := .error .registrationUnsupported } :=
  (c7_client_resolution sampleMeta "memory" sampleEnv).2 rfl

/-! ### C4: one state, one verifier, one challenge, one redirect URI -/

/-- C4: once the client id is resolved and the listener is bound to a
port, the authorization query's `redirect_uri` is exactly
`http://127.0.0.1:{port}/callback`; the listener is armed with the same
freshly generated state that the authorization query carries; the
challenge in the query is the S256 challenge of the one generated
verifier; and whenever the token-exchange form is sent, its
`redirect_uri` is byte-identical to the authorization query's and its
`code_verifier` is that same verifier. -/
theorem c4_redirect_uri_consistency (meta : OAuthMetadata) (existing : Option String)
    (scope : String) (env : LoginEnv) (cid : String) (port : Nat)
    (hcid : (resolveClientId meta existing env.registerOutcome).1 = .ok cid)
    (hbind : env.bindOutcome = some port) :
    qparam "redirect_uri" (login_oauth_pkce meta existing scope env).authQuery =
      some (redirectUriOf port)
    ∧ (login_oauth_pkce meta existing scope env).listenerExpectedState =
        some (random_base64url env.rnd 18)
    ∧ qparam "state" (login_oauth_pkce meta existing scope env).authQuery =
        some (random_base64url env.rnd 18)
    ∧ qparam "code_challenge" (login_oauth_pkce meta existing scope env).authQuery =
        some (pkce_challenge_s256 (pkce_verifier env.rnd))
    ∧ (∀ form, (login_oauth_pkce meta existing scope env).tokenForm = some form →
        qparam "redirect_uri" (some form) =
          qparam "redirect_uri" (login_oauth_pkce meta existing scope env).authQuery
        ∧ qparam "redirect_uri" (some form) = some (redirectUriOf port)
        ∧ qparam "code_verifier" (some form) = some (pkce_verifier env.rnd)) := by
  simp only [login_oauth_pkce, hcid, hbind]
  cases hw : wait_for_oauth_callback (random_base64url env.rnd 18)
      env.callbackEvents env.callbackReadyAt with
  | error e => simp [qparam]
  | ok code =>
      cases ht : handleTokenExchange env.tokenStatus env.tokenBodyJson env.tokenBodyRaw with
      | error e => simp [qparam]
      | ok tk => simp [qparam]

/-- C4 instantiated: cached client id, successful bind on port 7777. -/
theorem c4_witness :
    qparam "redirect_uri"
        (login_oauth_pkce sampleMeta (some "cid0") "memory" sampleEnvOk).authQuery =
      some (redirectUriOf 7777) :=
  (c4_redirect_uri_consistency sampleMeta (some "cid0") "memory" sampleEnvOk
    "cid0" 7777 rfl rfl).1

end Pajama
